import Mathlib

/-!
Verification of the `rust-xdotool` shell-execution contract.

The repository wraps the `xdotool` and `xwd` command-line tools: a context
(`XServer`) holds a display number and an authority token; `XServer::run`
builds the string `xdotool <command> <args>`, launches it through `sh -c`
with `DISPLAY`/`XAUTHORITY` set on the child, and returns the captured
output; `XServer::screenshot` spawns `xwd -root` directly.  The desktop
convenience wrappers each pick one command variant and a positional string.

The embedding below models the command rendering (whose module is described
by the spec), the spawn specification each call issues, the result the
caller receives as a function of the spawn outcome, and the state (calling
process environment, context fields) threaded through a call.
-/

/-- Modelled from the spec: option flags of the `set_desktop` subcommand
(module `command::options`, not present in the sources); the spec names the
relative-movement option with fixed token `--relative`. -/
inductive SetDesktopOption where
  | Relative
deriving DecidableEq, Repr

/-- Modelled from the spec: option flags for synchronising commands
(module `command::options`, not present in the sources); fixed token
`--sync`. -/
inductive SyncOption where
  | Sync
deriving DecidableEq, Repr

/-- Modelled from the spec: the desktop sub-command actions used by
`desktop.rs` (module `command::sub_commands`, not present in the sources). -/
inductive DesktopCmd where
  | WindowActivate (opts : List SyncOption)
  | GetActiveWindow
  | SetNumDesktops
  | GetNumDesktops
  | SetDesktopViewport
  | GetDesktopViewport
  | SetDesktop (opts : List SetDesktopOption)
  | GetDesktop
  | SetDesktopForWindow
  | GetDesktopForWindow
deriving DecidableEq, Repr

/-- Modelled from the spec: the Command Model, a tagged variant over
categories (module `command`, not present in the sources).  Only the
Desktop category is exercised by the sources under verification. -/
inductive Command where
  | Desktop (d : DesktopCmd)
deriving DecidableEq, Repr

/-- Modelled from the spec: flag tokens contributed by a `set_desktop`
option collection.  Per the spec, rendering walks the variant enumeration
in its defined order and each option variant present contributes exactly
one fixed literal token; omitted options contribute zero tokens. -/
def renderSetDesktopOptions (opts : List SetDesktopOption) : List String :=
  if SetDesktopOption.Relative ∈ opts then ["--relative"] else []

/-- Modelled from the spec: flag tokens contributed by a sync option
collection, same convention as `renderSetDesktopOptions`. -/
def renderSyncOptions (opts : List SyncOption) : List String :=
  if SyncOption.Sync ∈ opts then ["--sync"] else []

/-- Modelled from the spec: the token sequence a desktop action renders to,
subcommand literal first (the exact textual form the external tool
expects), then the flag tokens. -/
def DesktopCmd.tokens : DesktopCmd → List String
  | .WindowActivate opts => "windowactivate" :: renderSyncOptions opts
  | .GetActiveWindow => ["getactivewindow"]
  | .SetNumDesktops => ["set_num_desktops"]
  | .GetNumDesktops => ["get_num_desktops"]
  | .SetDesktopViewport => ["set_desktop_viewport"]
  | .GetDesktopViewport => ["get_desktop_viewport"]
  | .SetDesktop opts => "set_desktop" :: renderSetDesktopOptions opts
  | .GetDesktop => ["get_desktop"]
  | .SetDesktopForWindow => ["set_desktop_for_window"]
  | .GetDesktopForWindow => ["get_desktop_for_window"]

/-- Modelled from the spec: token sequence of a command. -/
def Command.tokens : Command → List String
  | .Desktop d => d.tokens

/-- Modelled from the spec: the rendered command text (the `Display`
implementation of `command::Command`, not present in the sources): the
space-separated token sequence, with no trailing artifact. -/
def Command.render (c : Command) : String :=
  String.intercalate " " c.tokens

/-- `std::process::Output`: captured stdout bytes, stderr bytes and the
exit status of one subprocess run (status 0 = success). -/
structure Output where
  status : Int
  stdout : List Nat
  stderr : List Nat
deriving DecidableEq, Repr

/-- The context (`XServer` in `lib.rs`): display number (`u32`, modelled
as `Nat`) and authority token. -/
structure XServer where
  display : Nat
  auth : String
deriving DecidableEq, Repr

/-- The spawn request a call hands to the operating system: program name,
argument vector, and the environment overrides applied to the child only
(`Command::new(p).arg(..).env(..)` in `lib.rs`). -/
structure SpawnSpec where
  program : String
  args : List String
  envOverrides : List (String × String)
deriving DecidableEq, Repr

/-- The invocation line of `XServer::run` in `lib.rs`, line 52:
`format!("xdotool {} {}", command, args)`. -/
def buildLine (c : Command) (args : String) : String :=
  "xdotool " ++ c.render ++ " " ++ args

/-- The child-environment overrides both `run` and `screenshot` install
(`lib.rs` lines 58 to 59 and 67 to 68): `DISPLAY` is a colon followed by
the base-10 display number, `XAUTHORITY` is the stored token. -/
def XServer.envOverrides (s : XServer) : List (String × String) :=
  [("DISPLAY", ":" ++ toString s.display), ("XAUTHORITY", s.auth)]

/-- The spawn request issued by `XServer::run` (`lib.rs` lines 55 to 60):
`sh -c <line>` with the child-environment overrides. -/
def XServer.runSpec (s : XServer) (c : Command) (args : String) : SpawnSpec :=
  { program := "sh"
    args := ["-c", buildLine c args]
    envOverrides := s.envOverrides }

/-- The spawn request issued by `XServer::screenshot` (`lib.rs` lines 66
to 70): the `xwd` program directly, with the single flag `-root` and the
same child-environment overrides. -/
def XServer.screenshotSpec (s : XServer) : SpawnSpec :=
  { program := "xwd"
    args := ["-root"]
    envOverrides := s.envOverrides }

/-- Outcome of the attempt to spawn the child: either the captured output
of the completed child, or a spawn-time failure (executable missing,
permission denied, fork failure) carrying the error text. -/
inductive SpawnResult where
  | ok (out : Output)
  | fail (e : String)
deriving DecidableEq, Repr

/-- What the caller observes: a normal return carrying the output, or a
panic (process abort) carrying the panic message. -/
inductive RunResult where
  | ret (out : Output)
  | panicked (msg : String)
deriving DecidableEq, Repr

/-- Whether a result is a panic rather than a normal return. -/
def RunResult.isPanic : RunResult → Bool
  | .ret _ => false
  | .panicked _ => true

/-- The panic message of `XServer::run` on spawn failure (`lib.rs` line
61): `panic!("Failed to execute 'xdotool key {}", args)`; the closure
ignores the spawn error and the message hardcodes the word `key`. -/
def runPanicMsg (args : String) : String :=
  "Failed to execute 'xdotool key " ++ args

/-- The value `XServer::run` produces, as a function of the spawn outcome
(`lib.rs` lines 60 to 61): the captured output verbatim on success,
`unwrap_or_else(|_| panic!(..))` on spawn failure. -/
def XServer.run (_s : XServer) (_c : Command) (args : String) :
    SpawnResult → RunResult
  | .ok out => .ret out
  | .fail _ => .panicked (runPanicMsg args)

/-- The value `XServer::screenshot` produces, as a function of the spawn
outcome (`lib.rs` lines 70 to 71): the captured output verbatim on
success, `unwrap()` (panic with the unwrap diagnostic) on spawn failure. -/
def XServer.screenshot (_s : XServer) : SpawnResult → RunResult
  | .ok out => .ret out
  | .fail e => .panicked ("called Result.unwrap on an Err value: " ++ e)

/-- Everything one call does: the spawn request it issues, the result the
caller receives, the calling-process environment after the call, and the
context fields after the call. -/
structure CallOutcome where
  spawn : SpawnSpec
  result : RunResult
  callerEnvAfter : List (String × String)
  ctxAfter : XServer
deriving DecidableEq, Repr

/-- One call to `XServer::run`, threading the calling-process environment
and the context through: the body of `run` reads `self` and never writes
the process environment (no environment mutation appears in `lib.rs`), so
both pass through unchanged. -/
def XServer.runCall (s : XServer) (callerEnv : List (String × String))
    (c : Command) (args : String) (sp : SpawnResult) : CallOutcome :=
  { spawn := s.runSpec c args
    result := s.run c args sp
    callerEnvAfter := callerEnv
    ctxAfter := s }

/-- One call to `XServer::screenshot`, threading state the same way. -/
def XServer.screenshotCall (s : XServer) (callerEnv : List (String × String))
    (sp : SpawnResult) : CallOutcome :=
  { spawn := s.screenshotSpec
    result := s.screenshot sp
    callerEnvAfter := callerEnv
    ctxAfter := s }

/-- `XServer::activate_window` (`desktop.rs` lines 25 to 28). -/
def XServer.activate_window (s : XServer) (callerEnv : List (String × String))
    (window : String) (options : List SyncOption) (sp : SpawnResult) : CallOutcome :=
  s.runCall callerEnv (.Desktop (.WindowActivate options)) window sp

/-- `XServer::get_active_window` (`desktop.rs` lines 42 to 45): runs the
get-active-window command with the empty positional string. -/
def XServer.get_active_window (s : XServer) (callerEnv : List (String × String))
    (sp : SpawnResult) : CallOutcome :=
  s.runCall callerEnv (.Desktop .GetActiveWindow) "" sp

/-- `XServer::set_num_desktops` (`desktop.rs` lines 48 to 51); the `u8`
parameter is formatted in base-10 decimal. -/
def XServer.set_num_desktops (s : XServer) (callerEnv : List (String × String))
    (num : Nat) (sp : SpawnResult) : CallOutcome :=
  s.runCall callerEnv (.Desktop .SetNumDesktops) (toString num) sp

/-- `XServer::get_num_desktops` (`desktop.rs` lines 63 to 66). -/
def XServer.get_num_desktops (s : XServer) (callerEnv : List (String × String))
    (sp : SpawnResult) : CallOutcome :=
  s.runCall callerEnv (.Desktop .GetNumDesktops) "" sp

/-- `XServer::set_desktop_viewport` (`desktop.rs` lines 69 to 73): the two
`u16` coordinates are formatted in decimal, joined by one space. -/
def XServer.set_desktop_viewport (s : XServer) (callerEnv : List (String × String))
    (x y : Nat) (sp : SpawnResult) : CallOutcome :=
  s.runCall callerEnv (.Desktop .SetDesktopViewport) (toString x ++ " " ++ toString y) sp

/-- `XServer::get_desktop_viewport` (`desktop.rs` lines 79 to 82). -/
def XServer.get_desktop_viewport (s : XServer) (callerEnv : List (String × String))
    (sp : SpawnResult) : CallOutcome :=
  s.runCall callerEnv (.Desktop .GetDesktopViewport) "" sp

/-- `XServer::set_desktop` (`desktop.rs` lines 89 to 92): the set-desktop
command with the caller-supplied options, positional argument the desktop
number formatted in base-10 decimal. -/
def XServer.set_desktop (s : XServer) (callerEnv : List (String × String))
    (desktop_number : Nat) (options : List SetDesktopOption)
    (sp : SpawnResult) : CallOutcome :=
  s.runCall callerEnv (.Desktop (.SetDesktop options)) (toString desktop_number) sp

/-- `XServer::get_desktop` (`desktop.rs` lines 95 to 98). -/
def XServer.get_desktop (s : XServer) (callerEnv : List (String × String))
    (sp : SpawnResult) : CallOutcome :=
  s.runCall callerEnv (.Desktop .GetDesktop) "" sp

/-- `XServer::set_desktop_for_window` (`desktop.rs` lines 101 to 105). -/
def XServer.set_desktop_for_window (s : XServer) (callerEnv : List (String × String))
    (window : String) (desktop_number : Nat) (sp : SpawnResult) : CallOutcome :=
  s.runCall callerEnv (.Desktop .SetDesktopForWindow)
    (window ++ " " ++ toString desktop_number) sp

/-- `XServer::get_desktop_for_window` (`desktop.rs` lines 108 to 111). -/
def XServer.get_desktop_for_window (s : XServer) (callerEnv : List (String × String))
    (window : String) (sp : SpawnResult) : CallOutcome :=
  s.runCall callerEnv (.Desktop .GetDesktopForWindow) window sp

/-- C1: the claim as stated is false on the code: `run` always inserts a
separator space between the rendered command text and the positional
string, so with the empty positional string (as in `get_active_window`)
the invocation line carries a trailing space — a trailing artifact. -/
theorem C1_counterexample :
    (XServer.get_active_window ⟨0, "a"⟩ [] (.ok ⟨0, [], []⟩)).spawn.args =
      ["-c", "xdotool getactivewindow "] ∧
    "xdotool getactivewindow " = "xdotool getactivewindow" ++ " " := by
  exact ⟨rfl, by decide⟩

/-- C1 (amended): for every command and positional string, the invocation
line built by `XServer::run` equals the tool name `xdotool`, one space,
the rendered command text, one space, the positional string; when the
positional string is empty the line therefore ends in one trailing
space after the rendered command text. -/
theorem C1_invocation_line (c : Command) (args : String) :
    buildLine c args = "xdotool " ++ c.render ++ " " ++ args ∧
    buildLine c "" = "xdotool " ++ c.render ++ " " := by
  refine ⟨rfl, ?_⟩
  simp [buildLine]

/-- C2: on spawn failure, both `XServer::run` and `XServer::screenshot`
abort the calling process with a panic rather than returning a
recoverable value. -/
theorem C2_spawn_failure_panics (s : XServer) (c : Command) (args : String)
    (e : String) :
    (s.run c args (.fail e)).isPanic = true ∧
    (s.screenshot (.fail e)).isPanic = true := by
  exact ⟨rfl, rfl⟩

/-- C3: if the child spawns and exits with a non-zero status,
`XServer::run` still returns the captured output verbatim — stdout,
stderr and the exit status unchanged, with no interpretation. -/
theorem C3_nonzero_exit_passthrough (s : XServer) (c : Command)
    (args : String) (out : Output) (h : out.status ≠ 0) :
    s.run c args (.ok out) = .ret out := by
  rfl

/-- C3 witness: a concrete run whose child exits with status 1 returns
that output unchanged. -/
theorem C3_nonzero_exit_passthrough_witness :
    XServer.run ⟨0, "a"⟩ (.Desktop .GetDesktop) "" (.ok ⟨1, [104], [101]⟩) =
      .ret ⟨1, [104], [101]⟩ :=
  C3_nonzero_exit_passthrough ⟨0, "a"⟩ (.Desktop .GetDesktop) ""
    ⟨1, [104], [101]⟩ (by decide)

/-- C4: `XServer::run` launches through a shell as
`sh -c "xdotool <command> <args>"` with `DISPLAY` set to a colon followed
by the base-10 display number and `XAUTHORITY` set to the stored
authority string, while `XServer::screenshot` spawns its tool (`xwd`)
directly, not through a shell. -/
theorem C4_shell_and_env (s : XServer) (c : Command) (args : String) :
    s.runSpec c args =
      { program := "sh"
        args := ["-c", buildLine c args]
        envOverrides :=
          [("DISPLAY", ":" ++ toString s.display), ("XAUTHORITY", s.auth)] } ∧
    s.screenshotSpec.program = "xwd" ∧ s.screenshotSpec.program ≠ "sh" := by
  refine ⟨rfl, rfl, ?_⟩
  show ("xwd" : String) ≠ "sh"
  decide

/-- C5: the `DISPLAY`/`XAUTHORITY` overrides land only in the spawned
child environment of the spawn request; the calling-process environment
is identical before and after every `run` and `screenshot` call. -/
theorem C5_caller_env_untouched (s : XServer) (env : List (String × String))
    (c : Command) (args : String) (sp : SpawnResult) :
    (s.runCall env c args sp).callerEnvAfter = env ∧
    (s.screenshotCall env sp).callerEnvAfter = env ∧
    (s.runCall env c args sp).spawn.envOverrides = s.envOverrides ∧
    (s.screenshotCall env sp).spawn.envOverrides = s.envOverrides := by
  exact ⟨rfl, rfl, rfl, rfl⟩

/-- C6: `XServer::screenshot` invokes `xwd` with exactly the single fixed
flag `-root`, its environment overrides bind `DISPLAY` to a colon
followed by the display number (and nothing else binds `DISPLAY`), and on
a successful spawn the captured output is returned verbatim, its stdout
being the raw image bytes. -/
theorem C6_screenshot_spec (s : XServer) (out : Output) :
    s.screenshotSpec.program = "xwd" ∧
    s.screenshotSpec.args = ["-root"] ∧
    s.screenshotSpec.envOverrides.filter (fun p => p.1 == "DISPLAY") =
      [("DISPLAY", ":" ++ toString s.display)] ∧
    s.screenshot (.ok out) = .ret out := by
  exact ⟨rfl, rfl, rfl, rfl⟩

/-- C7: building the invocation is deterministic — two calls with
identical context, command and positional string issue identical spawn
requests (the construction is a pure function of its inputs). -/
theorem C7_deterministic (s₁ s₂ : XServer) (c₁ c₂ : Command)
    (a₁ a₂ : String) (hs : s₁ = s₂) (hc : c₁ = c₂) (ha : a₁ = a₂) :
    s₁.runSpec c₁ a₁ = s₂.runSpec c₂ a₂ := by
  subst hs hc ha
  rfl

/-- C7 witness: two identical concrete constructions coincide. -/
theorem C7_deterministic_witness :
    XServer.runSpec ⟨0, "a"⟩ (.Desktop .GetDesktop) "w" =
      XServer.runSpec ⟨0, "a"⟩ (.Desktop .GetDesktop) "w" :=
  C7_deterministic ⟨0, "a"⟩ ⟨0, "a"⟩ (.Desktop .GetDesktop)
    (.Desktop .GetDesktop) "w" "w" rfl rfl rfl

/-- C8: for every desktop number and option collection containing the
relative-movement option, `XServer::set_desktop` renders the command
tokens as the subcommand literal followed by `--relative` exactly once,
and the shell line places that flag before the positional argument, the
desktop number in base-10 decimal. -/
theorem C8_set_desktop_relative (s : XServer) (env : List (String × String))
    (n : Nat) (opts : List SetDesktopOption) (sp : SpawnResult)
    (h : SetDesktopOption.Relative ∈ opts) :
    (Command.Desktop (DesktopCmd.SetDesktop opts)).tokens =
      ["set_desktop", "--relative"] ∧
    (s.set_desktop env n opts sp).spawn.args =
      ["-c", "xdotool set_desktop --relative " ++ toString n] := by
  constructor
  · simp [Command.tokens, DesktopCmd.tokens, renderSetDesktopOptions, h]
  · show ["-c", buildLine (Command.Desktop (DesktopCmd.SetDesktop opts)) (toString n)] = _
    simp only [buildLine, Command.render, Command.tokens, DesktopCmd.tokens,
      renderSetDesktopOptions, if_pos h]
    rfl

/-- C8 witness: desktop number 2 with the relative option yields the line
`xdotool set_desktop --relative 2`. -/
theorem C8_set_desktop_relative_witness :
    (Command.Desktop (DesktopCmd.SetDesktop [SetDesktopOption.Relative])).tokens =
      ["set_desktop", "--relative"] ∧
    (XServer.set_desktop ⟨0, "a"⟩ [] 2 [SetDesktopOption.Relative]
        (.ok ⟨0, [], []⟩)).spawn.args =
      ["-c", "xdotool set_desktop --relative " ++ toString 2] :=
  C8_set_desktop_relative ⟨0, "a"⟩ [] 2 [SetDesktopOption.Relative]
    (.ok ⟨0, [], []⟩) (by decide)

/-- C9: the context is immutable — `run`, `screenshot` and every desktop
convenience wrapper leave the display number and authority string of the
`XServer` value unchanged. -/
theorem C9_context_immutable (s : XServer) (env : List (String × String))
    (c : Command) (args window : String) (n x y : Nat)
    (so : List SyncOption) (dopts : List SetDesktopOption) (sp : SpawnResult) :
    (s.runCall env c args sp).ctxAfter = s ∧
    (s.screenshotCall env sp).ctxAfter = s ∧
    (s.activate_window env window so sp).ctxAfter = s ∧
    (s.get_active_window env sp).ctxAfter = s ∧
    (s.set_num_desktops env n sp).ctxAfter = s ∧
    (s.get_num_desktops env sp).ctxAfter = s ∧
    (s.set_desktop_viewport env x y sp).ctxAfter = s ∧
    (s.get_desktop_viewport env sp).ctxAfter = s ∧
    (s.set_desktop env n dopts sp).ctxAfter = s ∧
    (s.get_desktop env sp).ctxAfter = s ∧
    (s.set_desktop_for_window env window n sp).ctxAfter = s ∧
    (s.get_desktop_for_window env window sp).ctxAfter = s := by
  exact ⟨rfl, rfl, rfl, rfl, rfl, rfl, rfl, rfl, rfl, rfl, rfl, rfl⟩

/-- C10: the panic message of `XServer::run` on spawn failure is the fixed
text followed by the positional string only: it hardcodes the subcommand
name `key` and is independent of the command actually being executed. -/
theorem C10_panic_message (s : XServer) (c c₂ : Command) (args e e₂ : String) :
    s.run c args (.fail e) =
      .panicked ("Failed to execute 'xdotool key " ++ args) ∧
    s.run c args (.fail e) = s.run c₂ args (.fail e₂) := by
  exact ⟨rfl, rfl⟩
